import Mathlib

/-!
Verification development for the opsBuddy repository.

The definitions below are shallow embeddings of the Python source:

* `src/gateway/utils.py` — `CircuitBreaker`, `determine_target_service`,
  `forward_request` (its observable outcome);
* `src/gateway/gateway.py` — the `route_requests` middleware;
* `src/services/incident-service/main.py` — `run_error_check`;
* `src/services/incident-service/database.py` — `query_errors_since`;
* `src/services/incident-service/utils.py` — `generate_incident_id`;
* `src/services/monitor-service/health_monitor.py` — `_check_service_health`,
  `_determine_status_from_response`, `_process_health_result`.

Modelling conventions: wall-clock times (`time.time()` floats, `datetime`
values) are embedded as integers (`Int` for the gateway clock, `Nat` seconds
for incident-service timestamps); all properties below are order-theoretic,
so nothing depends on the density of the time domain.  Python strings are
Lean `String`s, with character-list helpers mirroring `str.startswith`,
`str.lower`, slicing `[:n]` and the `in` substring test.  Fallible calls are
embedded by matching on an explicit outcome value, and a Python expression
that can raise `TypeError` (`float - None`) is embedded as an `Option`.
-/

namespace OpsBuddy

/-- Python `str.lower()` on a string, character by character. -/
def pyLower (s : String) : String := String.mk (s.toList.map Char.toLower)

/-- Python slicing `s[:n]` on a string (a character-count slice). -/
def pySlice (s : String) (n : Nat) : String := String.mk (s.toList.take n)

/-- Helper for the Python substring test: does `pat` occur inside the list? -/
def substrAux (pat : List Char) : List Char → Bool
  | [] => pat.isEmpty
  | c :: cs => pat.isPrefixOf (c :: cs) || substrAux pat cs

/-- Python `pat in s` (substring containment). -/
def containsSubstr (s pat : String) : Bool := substrAux pat.toList s.toList

/-- Python `s.startswith(pre)`. -/
def startswith (s pre : String) : Bool := pre.toList.isPrefixOf s.toList

/-! ## Circuit breaker (`src/gateway/utils.py`, class `CircuitBreaker`) -/

/-- The `self.state` field: `"CLOSED"`, `"OPEN"` or `"HALF_OPEN"`. -/
inductive CBState
  | CLOSED
  | OPEN
  | HALF_OPEN
deriving DecidableEq, Repr

/-- The mutable fields of `CircuitBreaker` plus its constructor parameters.
`last_failure_time` is `None` or a wall-clock instant; `timeout` is the
cooldown in seconds (`int` in the source, embedded into the time domain). -/
structure CircuitBreaker where
  failure_threshold : Nat
  timeout : Int
  failure_count : Nat
  last_failure_time : Option Int
  state : CBState
deriving DecidableEq, Repr

namespace CircuitBreaker

/-- `CircuitBreaker.__init__(failure_threshold, timeout)`. -/
def init (failure_threshold : Nat) (timeout : Int) : CircuitBreaker :=
  { failure_threshold := failure_threshold
    timeout := timeout
    failure_count := 0
    last_failure_time := none
    state := .CLOSED }

/-- `CircuitBreaker.can_execute()`, with `now` the value of `time.time()`.
Returns the boolean result together with the breaker as mutated by the call;
`none` embeds the `TypeError` raised by `time.time() - None` when the state
is OPEN while `last_failure_time` is `None`. -/
def can_execute (cb : CircuitBreaker) (now : Int) :
    Option (Bool × CircuitBreaker) :=
  match cb.state with
  | .CLOSED => some (true, cb)
  | .OPEN =>
    match cb.last_failure_time with
    | none => none
    | some lft =>
      if now - lft > cb.timeout then
        some (true, { cb with state := .HALF_OPEN })
      else
        some (false, cb)
  | .HALF_OPEN => some (true, cb)

/-- `CircuitBreaker.on_success()`. -/
def on_success (cb : CircuitBreaker) : CircuitBreaker :=
  { cb with failure_count := 0, state := .CLOSED, last_failure_time := none }

/-- `CircuitBreaker.on_failure()`, with `now` the value of `time.time()`:
increment `failure_count`, record `last_failure_time`, and set the state to
OPEN when the incremented count reaches `failure_threshold`
(`failure_count >= failure_threshold`). -/
def on_failure (cb : CircuitBreaker) (now : Int) : CircuitBreaker :=
  { failure_threshold := cb.failure_threshold
    timeout := cb.timeout
    failure_count := cb.failure_count + 1
    last_failure_time := some now
    state :=
      if cb.failure_threshold ≤ cb.failure_count + 1 then .OPEN
      else cb.state }

end CircuitBreaker

/-- One call on a `CircuitBreaker` object, with its `time.time()` reading. -/
inductive CBEvent
  | exec (now : Int)
  | success
  | failure (now : Int)
deriving DecidableEq, Repr

/-- Apply one call to the breaker; `none` embeds a raised `TypeError`. -/
def CircuitBreaker.step (cb : CircuitBreaker) : CBEvent → Option CircuitBreaker
  | .exec now => (cb.can_execute now).map Prod.snd
  | .success => some cb.on_success
  | .failure now => some (cb.on_failure now)

/-- Run a sequence of calls; `none` as soon as any call raises. -/
def runCB (cb : CircuitBreaker) : List CBEvent → Option CircuitBreaker
  | [] => some cb
  | e :: es =>
    match cb.step e with
    | none => none
    | some cb' => runCB cb' es

/-- A sequence of `on_failure()` calls (`foldl` over their clock readings). -/
def failMany (cb : CircuitBreaker) (times : List Int) : CircuitBreaker :=
  times.foldl CircuitBreaker.on_failure cb

/-! ## Routing (`src/gateway/utils.py`, `determine_target_service`;
`src/gateway/gateway.py`, middleware `route_requests`) -/

/-- `determine_target_service(path, routing_rules)`: iterate the routing
table in insertion order and return the service of the first route prefix
the path starts with (`dict.items()` preserves insertion order). -/
def determine_target_service (path : String)
    (routing_rules : List (String × String)) : Option String :=
  match routing_rules with
  | [] => none
  | (routePre, service_name) :: rest =>
    if startswith path routePre then some service_name
    else determine_target_service path rest

/-- Follows the spec's words (for comparison with `determine_target_service`):
"longest-prefix match of request path against a routing table" — among the
entries whose route prefix the path starts with, select the service of the
entry with the longest prefix (first such entry on ties). -/
def specLongestMatch (path : String)
    (routing_rules : List (String × String)) : Option String :=
  match routing_rules.filter (fun pr => startswith path pr.1) with
  | [] => none
  | m :: ms =>
    some (ms.foldl
      (fun best pr => if best.1.length < pr.1.length then pr else best) m).2

/-- The gateway-specific paths `route_requests` skips (passes through). -/
def skipPaths : List String :=
  ["/", "/health", "/status", "/api", "/api/services", "/docs", "/redoc",
   "/openapi.json"]

/-- Observable outcome of the `try:` block that builds the target URL and
awaits `forward_request`: either an upstream HTTP response was received
(with its status code), or an exception was raised (with its `str(e)`). -/
inductive ForwardOutcome
  | ok (status : Nat) (msg : String)
  | exn (msg : String)
deriving DecidableEq, Repr

/-- What one pass through the `route_requests` middleware did: the response
status the gateway produced (`none` when the request was passed through to
the gateway's own endpoints), whether the forwarding attempt was made, and
the final breaker object for the matched service. -/
structure GatewayResult where
  status : Option Nat
  upstreamCalled : Bool
  breaker : Option CircuitBreaker
deriving DecidableEq, Repr

/-- The `route_requests` middleware of `src/gateway/gateway.py` for a single
request.  `breakerFor` is `circuit_breakers.get(target_service)`; `now` is
the `time.time()` reading inside `can_execute`, `tFail` the one inside
`on_failure`; `outcome` is the observable result of the forwarding attempt.
The overall `none` embeds an uncaught `TypeError` out of `can_execute`. -/
def route_requests (path : String) (routing_rules : List (String × String))
    (breakerFor : Option CircuitBreaker) (now tFail : Int)
    (outcome : ForwardOutcome) : Option GatewayResult :=
  if path ∈ skipPaths then
    some { status := none, upstreamCalled := false, breaker := breakerFor }
  else
    match determine_target_service path routing_rules with
    | none =>
      some { status := some 404, upstreamCalled := false,
             breaker := breakerFor }
    | some _ =>
      match breakerFor with
      | none =>
        -- no breaker registered for the service: forward unguarded
        match outcome with
        | .ok s _ =>
          some { status := some s, upstreamCalled := true, breaker := none }
        | .exn m =>
          some { status := some (if containsSubstr (pyLower m) "timeout"
                                 then 504 else 502)
                 upstreamCalled := true, breaker := none }
      | some cb =>
        match cb.can_execute now with
        | none => none
        | some (false, cb') =>
          some { status := some 503, upstreamCalled := false,
                 breaker := some cb' }
        | some (true, cb') =>
          match outcome with
          | .ok s _ =>
            some { status := some s, upstreamCalled := true,
                   breaker := some cb'.on_success }
          | .exn m =>
            some { status := some (if containsSubstr (pyLower m) "timeout"
                                   then 504 else 502)
                   upstreamCalled := true,
                   breaker := some (cb'.on_failure tFail) }

/-! ## Incident detector (`src/services/incident-service/main.py`,
`run_error_check`; `src/services/incident-service/database.py`,
`query_errors_since`) -/

/-- One row of the log store, as the detector's Flux query sees it.
Timestamps are in whole seconds (the source truncates microseconds with
`replace(microsecond=0)` before building the query). -/
structure LogRow where
  time : Nat
  service : String
  level : String
  message : String
deriving DecidableEq, Repr

/-- Insert a row into a list kept sorted by descending timestamp. -/
def insertByTimeDesc (r : LogRow) : List LogRow → List LogRow
  | [] => [r]
  | x :: xs =>
    if x.time ≤ r.time then r :: x :: xs else x :: insertByTimeDesc r xs

/-- `sort(columns: ["_time"], desc: true)` of the Flux query. -/
def sortByTimeDesc : List LogRow → List LogRow
  | [] => []
  | x :: xs => insertByTimeDesc x (sortByTimeDesc xs)

/-- `DatabaseManager.query_errors_since(timestamp)`: the Flux query
`range(start: ts)` (start-inclusive) filtered to
`level == "ERROR" or level == "CRITICAL" or level == "FATAL"`, then
`limit(n: batch)` and `sort(desc: true)`, run against the store `store`. -/
def query_errors_since (store : List LogRow) (batch : Nat) (ts : Nat) :
    List LogRow :=
  sortByTimeDesc
    ((store.filter (fun r =>
        decide (ts ≤ r.time) &&
        (r.level == "ERROR" || r.level == "CRITICAL" ||
         r.level == "FATAL"))).take batch)

/-- The detector's only persistent state: the module-global
`last_error_check` checkpoint (`None` before startup assigns it). -/
structure IncidentState where
  last_error_check : Option Nat
deriving DecidableEq, Repr

/-- Outcome of awaiting `query_errors_since`: its rows, or a raised
exception with its message. -/
inductive QueryResult
  | ok (rows : List LogRow)
  | err (msg : String)
deriving DecidableEq, Repr

/-- What one detector cycle observably did: the timestamp passed to
`query_errors_since` (`none` when no query was issued) and the rows it
returned. -/
structure CycleTrace where
  queriedTs : Option Nat
  fetched : List LogRow
deriving DecidableEq, Repr

/-- `run_error_check()` of `src/services/incident-service/main.py`, one
cycle.  `now` is the `datetime.utcnow()` snapshot `current_check`;
`connected` is `db_manager._connected` and `redisConn` the truthiness of
`redis_client`; `query` is the awaited `query_errors_since` call.  The
source assigns `last_error_check = current_check` immediately after taking
the snapshot — before the query — so the query is issued with
`current_check` itself, the `if last_error_check:` guard is always true,
and the closing `last_error_check = current_check` (skipped when the query
raises, since the `except` block only logs) re-assigns the same value. -/
def run_error_check (st : IncidentState) (now : Nat)
    (connected redisConn : Bool) (query : Nat → QueryResult) :
    IncidentState × CycleTrace :=
  if ¬(connected && redisConn) then
    (st, { queriedTs := none, fetched := [] })
  else
    let current_check := now
    let st1 : IncidentState := { last_error_check := some current_check }
    match query current_check with
    | .err _ =>
      (st1, { queriedTs := some current_check, fetched := [] })
    | .ok rows =>
      ({ last_error_check := some current_check },
       { queriedTs := some current_check, fetched := rows })

/-! ## Incident id (`src/services/incident-service/utils.py`,
`generate_incident_id`) -/

/-- A log-entry dict as `generate_incident_id` reads it: each field is
present or absent (`dict.get`).  Fields beyond the four hashed ones are
carried to show they do not influence the id. -/
structure IncidentLogEntry where
  service : Option String
  level : Option String
  timestamp : Option String
  message : Option String
  logEmitter : Option String
  operation : Option String
  host : Option String
deriving DecidableEq, Repr

/-- The f-string
`f"{service}_{level}_{timestamp}_{message[:50]}"` with the source's
`dict.get` defaults. -/
def incident_string (e : IncidentLogEntry) : String :=
  e.service.getD "unknown" ++ "_" ++ e.level.getD "INFO" ++ "_" ++
    e.timestamp.getD "" ++ "_" ++ pySlice (e.message.getD "") 50

/-- `generate_incident_id(log_entry)`:
`hashlib.md5(incident_string.encode()).hexdigest()[:16]`.  The MD5 hex
digest is a fixed pure function of its input string; it is taken here as an
arbitrary function parameter, so every theorem about the id holds for the
actual digest in particular. -/
def generate_incident_id (md5hex : String → String)
    (e : IncidentLogEntry) : String :=
  pySlice (md5hex (incident_string e)) 16

/-! ## Health monitor (`src/services/monitor-service/health_monitor.py`) -/

/-- `ServiceStatus` enumeration of the monitor service. -/
inductive ServiceStatus
  | HEALTHY
  | UNHEALTHY
  | DEGRADED
  | UNKNOWN
deriving DecidableEq, Repr

/-- The probe response body as `_determine_status_from_response` reads it:
either not a dict, or a dict with an optional string `status` field and an
optional `service.status` nested string field.  (A non-string field value
would make `.lower()` raise; the bare `except:` in `_check_service_health`
then takes the not-parseable branch, which the `body = none` case of
`ProbeOutcome.response` covers.) -/
inductive JsonHealth
  | nonDict
  | dict (status : Option String) (serviceStatus : Option String)
deriving DecidableEq, Repr

/-- `HealthMonitor._determine_status_from_response(health_data)`. -/
def determine_status_from_response : JsonHealth → ServiceStatus
  | .nonDict => .HEALTHY
  | .dict status serviceStatus =>
    let s := pyLower (status.getD "")
    if s = "healthy" then .HEALTHY
    else if s = "unhealthy" then .UNHEALTHY
    else if s = "degraded" then .DEGRADED
    else
      let s2 := pyLower (serviceStatus.getD "")
      if s2 = "healthy" then .HEALTHY
      else if s2 = "unhealthy" then .UNHEALTHY
      else if s2 = "degraded" then .DEGRADED
      else .HEALTHY

/-- Observable outcome of the probe `session.get(url)`: an HTTP response
(status code, plus its body if it parsed as JSON — `none` when
`response.json()` raised), a timeout (`asyncio.TimeoutError`), or another
transport exception with its `str(e)`. -/
inductive ProbeOutcome
  | response (status : Nat) (body : Option JsonHealth)
  | timeout
  | exn (msg : String)
deriving DecidableEq, Repr

/-- The fields of `HealthCheckResult` the claims are about. -/
structure HealthCheckResult where
  status : ServiceStatus
  error_message : String
deriving DecidableEq, Repr

/-- `HealthMonitor._check_service_health(service_name)`: derive the
`HealthCheckResult` from the probe outcome. -/
def check_service_health : ProbeOutcome → HealthCheckResult
  | .response st body =>
    if st < 400 then
      match body with
      | some j =>
        { status := determine_status_from_response j, error_message := "" }
      | none =>
        { status := if st < 500 then .HEALTHY else .UNHEALTHY
          error_message := "" }
    else
      { status := .UNHEALTHY, error_message := "HTTP " ++ toString st }
  | .timeout => { status := .UNHEALTHY, error_message := "Timeout" }
  | .exn m => { status := .UNHEALTHY, error_message := m }

/-- The fields of the `ServiceHealth` record the claims are about. -/
structure ServiceHealth where
  status : ServiceStatus
  error_message : String
  consecutive_failures : Nat
deriving DecidableEq, Repr

/-- `HealthMonitor._process_health_result(result)`: copy the result into
the service record and maintain `consecutive_failures`. -/
def process_health_result (sh : ServiceHealth) (r : HealthCheckResult) :
    ServiceHealth :=
  { status := r.status
    error_message := r.error_message
    consecutive_failures :=
      if r.status = .HEALTHY then 0 else sh.consecutive_failures + 1 }

/-- The implicit invariant behind `can_execute`'s `time.time() -
self.last_failure_time` subtraction: an OPEN breaker has a recorded last
failure time. -/
def CBInv (cb : CircuitBreaker) : Prop :=
  cb.state = .OPEN → cb.last_failure_time ≠ none

/-! ## Helper lemmas -/

theorem isPrefixOf_iff {l1 l2 : List Char} :
    l1.isPrefixOf l2 = true ↔ l1 <+: l2 := by
  induction l1 generalizing l2 with
  | nil =>
    cases l2 with
    | nil =>
      rw [show (List.isPrefixOf ([] : List Char) [] : Bool) = true from rfl]
      simp
    | cons b bs =>
      rw [show (List.isPrefixOf ([] : List Char) (b :: bs) : Bool) = true
            from rfl]
      simp
  | cons a as ih =>
    cases l2 with
    | nil =>
      rw [show ((a :: as).isPrefixOf [] : Bool) = false from rfl]
      simp
    | cons b bs =>
      rw [show ((a :: as).isPrefixOf (b :: bs) : Bool)
            = (a == b && as.isPrefixOf bs) from rfl]
      simp [List.cons_prefix_cons, ih]

theorem prefix_total {l1 l2 l3 : List Char} (h1 : l1 <+: l3)
    (h2 : l2 <+: l3) : l1 <+: l2 ∨ l2 <+: l1 := by
  induction l3 generalizing l1 l2 with
  | nil => simp_all [List.prefix_nil]
  | cons a t ih =>
    match l1, l2 with
    | [], _ => exact Or.inl List.nil_prefix
    | _, [] => exact Or.inr List.nil_prefix
    | b :: t1, c :: t2 =>
      obtain ⟨hb, h1'⟩ := List.cons_prefix_cons.mp h1
      obtain ⟨hc, h2'⟩ := List.cons_prefix_cons.mp h2
      subst hb; subst hc
      rcases ih h1' h2' with h | h
      · exact Or.inl (List.cons_prefix_cons.mpr ⟨rfl, h⟩)
      · exact Or.inr (List.cons_prefix_cons.mpr ⟨rfl, h⟩)

theorem startswith_iff {s pre : String} :
    startswith s pre = true ↔ pre.toList <+: s.toList := by
  simp [startswith, isPrefixOf_iff]

theorem on_failure_fields (cb : CircuitBreaker) (t : Int) :
    (cb.on_failure t).failure_count = cb.failure_count + 1 ∧
    (cb.on_failure t).failure_threshold = cb.failure_threshold ∧
    (cb.on_failure t).timeout = cb.timeout ∧
    (cb.on_failure t).last_failure_time = some t := by
  simp [CircuitBreaker.on_failure]

theorem on_failure_state_open (cb : CircuitBreaker) (t : Int)
    (h : cb.failure_threshold ≤ cb.failure_count + 1) :
    (cb.on_failure t).state = .OPEN := by
  simp [CircuitBreaker.on_failure, if_pos h]

theorem failMany_fields (cb : CircuitBreaker) (times : List Int) :
    (failMany cb times).failure_count = cb.failure_count + times.length ∧
    (failMany cb times).failure_threshold = cb.failure_threshold ∧
    (failMany cb times).timeout = cb.timeout := by
  induction times generalizing cb with
  | nil => simp [failMany]
  | cons t ts ih =>
    have e : failMany cb (t :: ts) = failMany (cb.on_failure t) ts := rfl
    have hi := ih (cb.on_failure t)
    rw [e]
    refine ⟨?_, ?_, ?_⟩
    · rw [hi.1]
      simp [CircuitBreaker.on_failure]
      omega
    · rw [hi.2.1]
      simp [CircuitBreaker.on_failure]
    · rw [hi.2.2]
      simp [CircuitBreaker.on_failure]

theorem failMany_append_one (cb : CircuitBreaker) (ts : List Int) (t : Int) :
    failMany cb (ts ++ [t]) = (failMany cb ts).on_failure t := by
  simp [failMany, List.foldl_append]

theorem can_execute_open_cooldown_not_elapsed (cb : CircuitBreaker)
    (now lft : Int) (hst : cb.state = .OPEN)
    (hlft : cb.last_failure_time = some lft)
    (h : now - lft ≤ cb.timeout) :
    cb.can_execute now = some (false, cb) := by
  simp only [CircuitBreaker.can_execute, hst, hlft]
  rw [if_neg (by omega)]

theorem can_execute_open_cooldown_elapsed (cb : CircuitBreaker)
    (now lft : Int) (hst : cb.state = .OPEN)
    (hlft : cb.last_failure_time = some lft)
    (h : cb.timeout < now - lft) :
    cb.can_execute now = some (true, { cb with state := .HALF_OPEN }) := by
  simp only [CircuitBreaker.can_execute, hst, hlft]
  rw [if_pos (by omega)]

theorem step_total_of_inv (cb : CircuitBreaker) (e : CBEvent)
    (h : CBInv cb) :
    ∃ cb', cb.step e = some cb' ∧ CBInv cb' := by
  cases e with
  | exec now =>
    cases hst : cb.state with
    | CLOSED =>
      refine ⟨cb, ?_, h⟩
      simp [CircuitBreaker.step, CircuitBreaker.can_execute, hst]
    | OPEN =>
      obtain ⟨lft, hlft⟩ := Option.ne_none_iff_exists'.mp (h hst)
      by_cases hc : cb.timeout < now - lft
      · refine ⟨{ cb with state := .HALF_OPEN }, ?_, ?_⟩
        · simp [CircuitBreaker.step,
            can_execute_open_cooldown_elapsed cb now lft hst hlft hc]
        · intro hop
          simp at hop
      · refine ⟨cb, ?_, h⟩
        simp [CircuitBreaker.step,
          can_execute_open_cooldown_not_elapsed cb now lft hst hlft
            (by omega)]
    | HALF_OPEN =>
      refine ⟨cb, ?_, h⟩
      simp [CircuitBreaker.step, CircuitBreaker.can_execute, hst]
  | success =>
    refine ⟨cb.on_success, rfl, ?_⟩
    intro hop
    simp [CircuitBreaker.on_success] at hop
  | failure now =>
    refine ⟨cb.on_failure now, rfl, ?_⟩
    intro _
    have := (on_failure_fields cb now).2.2.2
    simp [this]

theorem runCB_total_of_inv (events : List CBEvent) (cb : CircuitBreaker)
    (h : CBInv cb) :
    ∃ cb', runCB cb events = some cb' ∧ CBInv cb' := by
  induction events generalizing cb with
  | nil => exact ⟨cb, rfl, h⟩
  | cons e es ih =>
    obtain ⟨cb1, hstep, hinv1⟩ := step_total_of_inv cb e h
    obtain ⟨cb2, hrun, hinv2⟩ := ih cb1 hinv1
    exact ⟨cb2, by simp [runCB, hstep, hrun], hinv2⟩

theorem determine_eq_head_filter (path : String)
    (rules : List (String × String)) :
    determine_target_service path rules
      = ((rules.filter (fun pr => startswith path pr.1)).head?).map
          Prod.snd := by
  induction rules with
  | nil => rfl
  | cons r rest ih =>
    obtain ⟨p, s⟩ := r
    cases h : startswith path p with
    | true => simp [determine_target_service, List.filter_cons, h]
    | false => simp [determine_target_service, List.filter_cons, h, ih]

theorem foldl_best_const (m : String × String) (ms : List (String × String))
    (h : ∀ pr ∈ ms, ¬ m.1.length < pr.1.length) :
    ms.foldl (fun best pr => if best.1.length < pr.1.length then pr
                             else best) m = m := by
  induction ms with
  | nil => rfl
  | cons q qs ih =>
    have hq := h q (by simp)
    rw [List.foldl_cons, if_neg hq]
    exact ih (fun pr hpr => h pr (by simp [hpr]))

theorem matching_prefixes_eq (path : String)
    (rules : List (String × String))
    (hnn : ∀ p1 s1 p2 s2, (p1, s1) ∈ rules → (p2, s2) ∈ rules → p1 ≠ p2 →
      startswith p2 p1 = false)
    (pr qr : String × String)
    (hpr : pr ∈ rules.filter (fun x => startswith path x.1))
    (hqr : qr ∈ rules.filter (fun x => startswith path x.1)) :
    pr.1 = qr.1 := by
  rw [List.mem_filter] at hpr hqr
  by_contra hne
  have h1 : pr.1.toList <+: path.toList := startswith_iff.mp hpr.2
  have h2 : qr.1.toList <+: path.toList := startswith_iff.mp hqr.2
  have hm1 : (pr.1, pr.2) ∈ rules := hpr.1
  have hm2 : (qr.1, qr.2) ∈ rules := hqr.1
  rcases prefix_total h1 h2 with h | h
  · have htrue : startswith qr.1 pr.1 = true := startswith_iff.mpr h
    rw [hnn pr.1 pr.2 qr.1 qr.2 hm1 hm2 hne] at htrue
    simp at htrue
  · have htrue : startswith pr.1 qr.1 = true := startswith_iff.mpr h
    rw [hnn qr.1 qr.2 pr.1 pr.2 hm2 hm1 (fun he => hne he.symm)] at htrue
    simp at htrue

/-! ## Claim theorems -/

/-- Claim C1: the claim says each detector cycle queries the log store with
the checkpoint left by the previous cycle and only afterwards sets the
checkpoint to the snapshot `t_now`.  The source instead assigns
`last_error_check = current_check` immediately after the snapshot and before
the query, so the query is issued with `t_now` itself: with previous
checkpoint 100, snapshot 200 and an ERROR row at time 150, the cycle
queries since 200 and fetches nothing, although the query the claim
describes (since 100) returns the row.  The level filter
ERROR/CRITICAL/FATAL and the ≥ comparison themselves are as claimed. -/
theorem c1_checkpoint_overwritten_before_query :
    run_error_check { last_error_check := some 100 } 200 true true
        (fun ts => .ok (query_errors_since
          [⟨150, "file", "ERROR", "disk full"⟩] 1000 ts))
      = ({ last_error_check := some 200 },
         { queriedTs := some 200, fetched := [] }) ∧
    query_errors_since [⟨150, "file", "ERROR", "disk full"⟩] 1000 100
      = [⟨150, "file", "ERROR", "disk full"⟩] := by
  decide

/-- Claim C2: the claim says a failed query leaves the checkpoint at its
pre-cycle value.  The source has already advanced `last_error_check` to the
cycle snapshot before the query runs, so a cycle whose query raises still
ends with the checkpoint at the snapshot: from pre-cycle checkpoint 100
and snapshot 200, a raising query leaves `last_error_check = 200`,
not 100. -/
theorem c2_failed_query_still_advances_checkpoint :
    run_error_check { last_error_check := some 100 } 200 true true
        (fun _ => .err "connection reset")
      = ({ last_error_check := some 200 },
         { queriedTs := some 200, fetched := [] }) ∧
    (some 200 : Option Nat) ≠ some 100 := by
  decide

/-- Claim C3, counterexample: the claim says an OPEN breaker admits the
caller as soon as `now - last_failure_time >= cooldown`.  With threshold 1
and cooldown 60, after a failure at time 0 a `can_execute()` at time 60 has
`now - last_failure_time = 60 ≥ 60`, yet the source's strict comparison
`time.time() - self.last_failure_time > self.timeout` returns false and
keeps the state OPEN. -/
theorem c3_cooldown_boundary_cex :
    (failMany (CircuitBreaker.init 1 60) [0]).state = CBState.OPEN ∧
    (failMany (CircuitBreaker.init 1 60) [0]).last_failure_time = some 0 ∧
    (60 : Int) - 0 ≥ 60 ∧
    ((failMany (CircuitBreaker.init 1 60) [0]).can_execute 60).map Prod.fst
      = some false := by
  decide

/-- Claim C3, amended: starting CLOSED with `failure_count` 0, after
`threshold` consecutive `on_failure()` calls (the last at time `t`) the
state is OPEN; `can_execute()` then returns false whenever
`now - last_failure_time <= cooldown`, and when
`now - last_failure_time > cooldown` (strictly) it returns true and
transitions the state to HALF_OPEN. -/
theorem c3_threshold_open_strict_cooldown (th : Nat) (cool : Int)
    (ts : List Int) (t now : Int) (hlen : (ts ++ [t]).length = th) :
    (failMany (CircuitBreaker.init th cool) (ts ++ [t])).state
      = CBState.OPEN ∧
    (failMany (CircuitBreaker.init th cool) (ts ++ [t])).last_failure_time
      = some t ∧
    (now - t ≤ cool →
      (failMany (CircuitBreaker.init th cool) (ts ++ [t])).can_execute now
        = some (false, failMany (CircuitBreaker.init th cool) (ts ++ [t]))) ∧
    (cool < now - t →
      (failMany (CircuitBreaker.init th cool) (ts ++ [t])).can_execute now
        = some (true, { failMany (CircuitBreaker.init th cool) (ts ++ [t])
                        with state := CBState.HALF_OPEN })) := by
  have happ := failMany_append_one (CircuitBreaker.init th cool) ts t
  have hf := failMany_fields (CircuitBreaker.init th cool) ts
  have hlen' : ts.length + 1 = th := by simpa using hlen
  have hopen : ((failMany (CircuitBreaker.init th cool) ts).on_failure t).state
      = CBState.OPEN := by
    refine on_failure_state_open _ _ ?_
    rw [hf.2.1, hf.1]
    simp only [CircuitBreaker.init]
    omega
  have hlft := (on_failure_fields (failMany (CircuitBreaker.init th cool) ts)
    t).2.2.2
  have hto : ((failMany (CircuitBreaker.init th cool) ts).on_failure t).timeout
      = cool := by
    rw [(on_failure_fields _ _).2.2.1, hf.2.2]
    rfl
  rw [happ]
  refine ⟨hopen, hlft, ?_, ?_⟩
  · intro hle
    exact can_execute_open_cooldown_not_elapsed _ now t hopen hlft
      (by rw [hto]; exact hle)
  · intro hlt
    exact can_execute_open_cooldown_elapsed _ now t hopen hlft
      (by rw [hto]; exact hlt)

/-- Witness for the amended claim C3: threshold 2, cooldown 60, failures at
times 5 and 9, probe at time 70. -/
theorem c3_threshold_open_strict_cooldown_witness :
    (failMany (CircuitBreaker.init 2 60) ([5] ++ [9])).state
      = CBState.OPEN ∧
    (failMany (CircuitBreaker.init 2 60) ([5] ++ [9])).last_failure_time
      = some 9 ∧
    ((70 : Int) - 9 ≤ 60 →
      (failMany (CircuitBreaker.init 2 60) ([5] ++ [9])).can_execute 70
        = some (false, failMany (CircuitBreaker.init 2 60) ([5] ++ [9]))) ∧
    (60 < (70 : Int) - 9 →
      (failMany (CircuitBreaker.init 2 60) ([5] ++ [9])).can_execute 70
        = some (true, { failMany (CircuitBreaker.init 2 60) ([5] ++ [9])
                        with state := CBState.HALF_OPEN })) :=
  c3_threshold_open_strict_cooldown 2 60 [5] 9 70 (by decide)

/-- Claim C4: the claim says that after an OPEN→HALF_OPEN transition
exactly one trial call is admitted until the next `on_success()` or
`on_failure()`.  In the source the HALF_OPEN branch of `can_execute()`
returns true unconditionally, so every further caller is admitted too:
with threshold 1 and cooldown 60, after a failure at time 0, a first
`can_execute()` at time 61 transitions to HALF_OPEN and returns true, and a
second `can_execute()` at time 61 — with no `on_success()`/`on_failure()`
in between — returns true as well. -/
theorem c4_half_open_admits_every_caller :
    (failMany (CircuitBreaker.init 1 60) [0]).state = CBState.OPEN ∧
    (failMany (CircuitBreaker.init 1 60) [0]).can_execute 61
      = some (true, { failMany (CircuitBreaker.init 1 60) [0]
                      with state := CBState.HALF_OPEN }) ∧
    ({ failMany (CircuitBreaker.init 1 60) [0]
       with state := CBState.HALF_OPEN }).can_execute 61
      = some (true, { failMany (CircuitBreaker.init 1 60) [0]
                      with state := CBState.HALF_OPEN }) := by
  decide

/-- Claim C5: when the matched service's breaker denies execution, the
gateway answers 503 and the forwarding attempt is never made, whatever the
upstream would have done. -/
theorem c5_open_breaker_returns_503_without_upstream
    (path : String) (rules : List (String × String)) (svc : String)
    (cb cb' : CircuitBreaker) (now tFail : Int) (outcome : ForwardOutcome)
    (hskip : path ∉ skipPaths)
    (hroute : determine_target_service path rules = some svc)
    (hexec : cb.can_execute now = some (false, cb')) :
    route_requests path rules (some cb) now tFail outcome
      = some { status := some 503, upstreamCalled := false,
               breaker := some cb' } := by
  simp [route_requests, hskip, hroute, hexec]

/-- Witness for claim C5 — the spec's scenario: a breaker with threshold 3
that has just OPENed from three consecutive failures; the next request for
the service gets 503 with no upstream call. -/
theorem c5_open_breaker_returns_503_without_upstream_witness :
    route_requests "/api/files/health" [("/api/files", "file")]
      (some (failMany (CircuitBreaker.init 3 60) [10, 11, 12])) 13 13
      (.ok 200 "")
      = some { status := some 503, upstreamCalled := false,
               breaker := some (failMany (CircuitBreaker.init 3 60)
                 [10, 11, 12]) } :=
  c5_open_breaker_returns_503_without_upstream "/api/files/health"
    [("/api/files", "file")] "file"
    (failMany (CircuitBreaker.init 3 60) [10, 11, 12])
    (failMany (CircuitBreaker.init 3 60) [10, 11, 12]) 13 13 (.ok 200 "")
    (by decide) (by decide) (by decide)

/-- Claim C6: when the breaker admits the request, any received upstream
response — 4xx and 5xx included — leads to `on_success()` and is returned
as the gateway's response; `on_failure()` is applied exactly when the
forwarding attempt raises, with the error mapped to 504 when the exception
message mentions a timeout and to 502 otherwise. -/
theorem c6_received_response_success_exception_failure
    (path : String) (rules : List (String × String)) (svc : String)
    (cb cb' : CircuitBreaker) (now tFail : Int)
    (hskip : path ∉ skipPaths)
    (hroute : determine_target_service path rules = some svc)
    (hexec : cb.can_execute now = some (true, cb')) :
    (∀ s m, route_requests path rules (some cb) now tFail (.ok s m)
        = some { status := some s, upstreamCalled := true,
                 breaker := some cb'.on_success }) ∧
    (∀ m, route_requests path rules (some cb) now tFail (.exn m)
        = some { status := some (if containsSubstr (pyLower m) "timeout"
                                 then 504 else 502)
                 upstreamCalled := true,
                 breaker := some (cb'.on_failure tFail) }) := by
  constructor
  · intro s m
    simp [route_requests, hskip, hroute, hexec]
  · intro m
    simp [route_requests, hskip, hroute, hexec]

/-- Witness for claim C6: an upstream 500 response still runs
`on_success()` and is passed to the caller; a raised timeout runs
`on_failure()` and maps to 504. -/
theorem c6_received_response_success_exception_failure_witness :
    route_requests "/api/files/x" [("/api/files", "file")]
      (some (CircuitBreaker.init 3 60)) 0 0 (.ok 500 "")
      = some { status := some 500, upstreamCalled := true,
               breaker := some (CircuitBreaker.init 3 60).on_success } ∧
    route_requests "/api/files/x" [("/api/files", "file")]
      (some (CircuitBreaker.init 3 60)) 0 0 (.exn "Request timeout")
      = some { status := some 504, upstreamCalled := true,
               breaker := some ((CircuitBreaker.init 3 60).on_failure 0) }
    := by
  have h := c6_received_response_success_exception_failure "/api/files/x"
    [("/api/files", "file")] "file" (CircuitBreaker.init 3 60)
    (CircuitBreaker.init 3 60) 0 0 (by decide) (by decide) (by decide)
  refine ⟨h.1 500 "", ?_⟩
  rw [h.2 "Request timeout"]
  decide

/-- Claim C7, counterexample: the claim says the service with the longest
matching route prefix is selected for every routing table.  The source
returns the first match in table iteration order: with the table
`/api ↦ a, /api/files ↦ f` and path `/api/files/x`, it selects `a`
although the longest matching prefix belongs to `f`. -/
theorem c7_first_match_not_longest_cex :
    determine_target_service "/api/files/x"
      [("/api", "a"), ("/api/files", "f")] = some "a" ∧
    specLongestMatch "/api/files/x"
      [("/api", "a"), ("/api/files", "f")] = some "f" ∧
    ("a" : String) ≠ "f" := by
  decide

/-- Claim C7, amended: the gateway selects the service of the first table
entry (in table iteration order) whose route prefix is a prefix of the
path; whenever no route prefix in the table is a prefix of another — as in
the shipped table — this coincides with longest-prefix match.  When no
prefix matches, the gateway responds 404 and never forwards. -/
theorem c7_first_match_semantics (path : String)
    (rules : List (String × String))
    (hnn : rules.all (fun pr => rules.all (fun qr =>
      pr.1 == qr.1 || !startswith qr.1 pr.1)) = true) :
    determine_target_service path rules = specLongestMatch path rules ∧
    (determine_target_service path rules = none →
      path ∉ skipPaths →
      ∀ brk now tFail outcome,
        route_requests path rules brk now tFail outcome
          = some { status := some 404, upstreamCalled := false,
                   breaker := brk }) := by
  have hnn' : ∀ p1 s1 p2 s2, (p1, s1) ∈ rules → (p2, s2) ∈ rules →
      p1 ≠ p2 → startswith p2 p1 = false := by
    intro p1 s1 p2 s2 h1 h2 hne
    have ha := List.all_eq_true.mp hnn (p1, s1) h1
    have hb := List.all_eq_true.mp ha (p2, s2) h2
    simp only [Bool.or_eq_true, beq_iff_eq, Bool.not_eq_true'] at hb
    rcases hb with hb | hb
    · exact absurd hb hne
    · exact hb
  constructor
  · rw [determine_eq_head_filter]
    cases hms : rules.filter (fun pr => startswith path pr.1) with
    | nil => simp [specLongestMatch, hms]
    | cons m ms =>
      have hmem : m ∈ rules.filter (fun pr => startswith path pr.1) := by
        rw [hms]; simp
      have hno : ∀ pr ∈ ms, ¬ m.1.length < pr.1.length := by
        intro pr hprm
        have hprf : pr ∈ rules.filter (fun pr => startswith path pr.1) := by
          rw [hms]; simp [hprm]
        rw [matching_prefixes_eq path rules hnn' m pr hmem hprf]
        exact lt_irrefl _
      have hspec : specLongestMatch path rules
          = some (ms.foldl (fun best pr =>
              if best.1.length < pr.1.length then pr else best) m).2 := by
        simp only [specLongestMatch, hms]
      rw [hspec, foldl_best_const m ms hno]
      simp
  · intro h404 hskip brk now tFail outcome
    simp [route_requests, hskip, h404]

/-- Witness for the amended claim C7 on the shipped routing table (whose
prefixes are pairwise non-nested), with an unmatched path. -/
theorem c7_first_match_semantics_witness :
    determine_target_service "/api/nowhere"
      [("/api/files", "file"), ("/api/utils", "utility"),
       ("/api/analytics", "analytics"), ("/api/incidents", "incident"),
       ("/api/timeseries", "timeseries")]
      = specLongestMatch "/api/nowhere"
        [("/api/files", "file"), ("/api/utils", "utility"),
         ("/api/analytics", "analytics"), ("/api/incidents", "incident"),
         ("/api/timeseries", "timeseries")] ∧
    (determine_target_service "/api/nowhere"
        [("/api/files", "file"), ("/api/utils", "utility"),
         ("/api/analytics", "analytics"), ("/api/incidents", "incident"),
         ("/api/timeseries", "timeseries")] = none →
      "/api/nowhere" ∉ skipPaths →
      ∀ brk now tFail outcome,
        route_requests "/api/nowhere"
          [("/api/files", "file"), ("/api/utils", "utility"),
           ("/api/analytics", "analytics"), ("/api/incidents", "incident"),
           ("/api/timeseries", "timeseries")] brk now tFail outcome
          = some { status := some 404, upstreamCalled := false,
                   breaker := brk }) :=
  c7_first_match_semantics "/api/nowhere"
    [("/api/files", "file"), ("/api/utils", "utility"),
     ("/api/analytics", "analytics"), ("/api/incidents", "incident"),
     ("/api/timeseries", "timeseries")]
    (by decide)

/-- Claim C8, counterexample: the claim says a probe timeout leaves an
`error_message` containing `"timeout"`.  The source sets
`error_message="Timeout"` (capital T), which does not contain the
lowercase string `"timeout"`. -/
theorem c8_timeout_capitalization_cex :
    (process_health_result ⟨.UNKNOWN, "", 0⟩
      (check_service_health .timeout)).error_message = "Timeout" ∧
    containsSubstr "Timeout" "timeout" = false := by
  decide

/-- Claim C8, amended: after one poll, an HTTP `<400` response whose JSON
body carries `"status":"degraded"` yields record status DEGRADED; an HTTP
`<400` response with no parseable status field (a dict without the field, a
non-dict JSON value, or an unparseable body) yields HEALTHY; an HTTP `≥400`
response, a transport error and a probe timeout all yield UNHEALTHY; and on
a probe timeout the record's `error_message` is the exact string
`"Timeout"` — it contains `"timeout"` only up to letter case. -/
theorem c8_status_derivation_amended (sh : ServiceHealth) :
    (∀ st ssvc, st < 400 →
      (process_health_result sh (check_service_health
        (.response st (some (.dict (some "degraded") ssvc))))).status
        = ServiceStatus.DEGRADED) ∧
    (∀ st, st < 400 →
      (process_health_result sh (check_service_health
        (.response st (some (.dict none none))))).status
        = ServiceStatus.HEALTHY ∧
      (process_health_result sh (check_service_health
        (.response st (some .nonDict)))).status = ServiceStatus.HEALTHY ∧
      (process_health_result sh (check_service_health
        (.response st none))).status = ServiceStatus.HEALTHY) ∧
    (∀ st body, 400 ≤ st →
      (process_health_result sh (check_service_health
        (.response st body))).status = ServiceStatus.UNHEALTHY) ∧
    (∀ m, (process_health_result sh
      (check_service_health (.exn m))).status = ServiceStatus.UNHEALTHY) ∧
    ((process_health_result sh (check_service_health .timeout)).status
      = ServiceStatus.UNHEALTHY ∧
     (process_health_result sh
       (check_service_health .timeout)).error_message = "Timeout" ∧
     containsSubstr (pyLower (process_health_result sh
       (check_service_health .timeout)).error_message) "timeout"
       = true) := by
  refine ⟨?_, ?_, ?_, ?_, ?_⟩
  · intro st ssvc h
    have hdeg : determine_status_from_response
        (.dict (some "degraded") ssvc) = ServiceStatus.DEGRADED := by
      simp only [determine_status_from_response, Option.getD]
      rw [if_neg (by decide), if_neg (by decide), if_pos (by decide)]
    simp [check_service_health, if_pos h, process_health_result, hdeg]
  · intro st h
    refine ⟨?_, ?_, ?_⟩
    · have hd : determine_status_from_response (.dict none none)
          = ServiceStatus.HEALTHY := by decide
      simp [check_service_health, if_pos h, process_health_result, hd]
    · have hd : determine_status_from_response .nonDict
          = ServiceStatus.HEALTHY := by decide
      simp [check_service_health, if_pos h, process_health_result, hd]
    · have h5 : st < 500 := by omega
      simp [check_service_health, if_pos h, if_pos h5,
        process_health_result]
  · intro st body h
    have h4 : ¬ st < 400 := by omega
    cases body <;>
      simp [check_service_health, if_neg h4, process_health_result]
  · intro m
    simp [check_service_health, process_health_result]
  · refine ⟨?_, ?_, ?_⟩ <;>
      simp [check_service_health, process_health_result]
    decide

/-- Witness for the amended claim C8 at a fresh record and HTTP status
200. -/
theorem c8_status_derivation_amended_witness :
    (process_health_result ⟨.UNKNOWN, "", 0⟩ (check_service_health
      (.response 200 (some (.dict (some "degraded") none))))).status
      = ServiceStatus.DEGRADED ∧
    (process_health_result ⟨.UNKNOWN, "", 0⟩ (check_service_health
      (.response 200 (some (.dict none none))))).status
      = ServiceStatus.HEALTHY ∧
    (process_health_result ⟨.UNKNOWN, "", 0⟩ (check_service_health
      (.response 500 (some (.dict (some "healthy") none))))).status
      = ServiceStatus.UNHEALTHY ∧
    (process_health_result ⟨.UNKNOWN, "", 0⟩ (check_service_health
      (.exn "Connection refused"))).status = ServiceStatus.UNHEALTHY ∧
    (process_health_result ⟨.UNKNOWN, "", 0⟩
      (check_service_health .timeout)).error_message = "Timeout" := by
  have h := c8_status_derivation_amended ⟨.UNKNOWN, "", 0⟩
  exact ⟨h.1 200 none (by decide), (h.2.1 200 (by decide)).1,
    h.2.2.1 500 (some (.dict (some "healthy") none)) (by decide),
    h.2.2.2.1 "Connection refused", h.2.2.2.2.2.1⟩

/-- Claim C9: the incident id is a deterministic function of the four
hashed fields — two log entries agreeing on `service`, `level`,
`timestamp` and `message` receive the same id, whatever their other
fields, and in particular the same row read in two different detector
cycles hashes to the same id.  (`md5hex` abstracts the pure
`hashlib.md5(...).hexdigest()` function.) -/
theorem c9_incident_id_deterministic (md5hex : String → String)
    (e e' : IncidentLogEntry)
    (hs : e.service = e'.service) (hl : e.level = e'.level)
    (ht : e.timestamp = e'.timestamp) (hm : e.message = e'.message) :
    generate_incident_id md5hex e = generate_incident_id md5hex e' := by
  simp [generate_incident_id, incident_string, hs, hl, ht, hm]

/-- Witness for claim C9: two entries equal on the four hashed fields but
different in emitter, operation and host get the same id. -/
theorem c9_incident_id_deterministic_witness :
    generate_incident_id id
      { service := some "file", level := some "ERROR",
        timestamp := some "2024-01-01T00:00:00Z",
        message := some "disk full", logEmitter := some "db",
        operation := some "write", host := some "host-a" }
      = generate_incident_id id
      { service := some "file", level := some "ERROR",
        timestamp := some "2024-01-01T00:00:00Z",
        message := some "disk full", logEmitter := none,
        operation := none, host := some "host-b" } :=
  c9_incident_id_deterministic id
    { service := some "file", level := some "ERROR",
      timestamp := some "2024-01-01T00:00:00Z",
      message := some "disk full", logEmitter := some "db",
      operation := some "write", host := some "host-a" }
    { service := some "file", level := some "ERROR",
      timestamp := some "2024-01-01T00:00:00Z",
      message := some "disk full", logEmitter := none,
      operation := none, host := some "host-b" }
    rfl rfl rfl rfl

/-- Claim C10: along every call sequence from a freshly constructed
breaker, an OPEN state always carries a recorded `last_failure_time`, so
the subtraction inside `can_execute()` is always defined and no call ever
raises (the run never reaches the embedded `TypeError`). -/
theorem c10_open_implies_last_failure_time (th : Nat) (cool : Int)
    (events : List CBEvent) :
    ∃ cb', runCB (CircuitBreaker.init th cool) events = some cb' ∧
      (cb'.state = CBState.OPEN → cb'.last_failure_time ≠ none) := by
  have hinv : CBInv (CircuitBreaker.init th cool) := by
    intro h
    simp [CircuitBreaker.init] at h
  exact runCB_total_of_inv events _ hinv

/-- Witness for claim C10 on a concrete call sequence that opens the
breaker and probes it. -/
theorem c10_open_implies_last_failure_time_witness :
    ∃ cb', runCB (CircuitBreaker.init 1 60)
        [CBEvent.failure 0, CBEvent.exec 30, CBEvent.exec 61] = some cb' ∧
      (cb'.state = CBState.OPEN → cb'.last_failure_time ≠ none) :=
  c10_open_implies_last_failure_time 1 60
    [CBEvent.failure 0, CBEvent.exec 30, CBEvent.exec 61]

end OpsBuddy
